import Mathlib

/-!
Shallow embedding of the catalog / search / similarity / sync core of the
brendan-mulvany-public-site repository (src/database.py, src/main.py).

Modelling conventions:
* SQLite tables become Lean lists of records kept in rowid (insertion) order.
* `CURRENT_TIMESTAMP` / `datetime.now()` become a logical clock `DB.clock`
  (a `Nat`, wall-clock seconds); every mutating operation stamps rows with the
  current clock value but does not advance it — time passes *between* calls,
  via the explicit `DB.tick` step.  Consecutive operations may therefore share
  a timestamp, exactly as SQLite's second-resolution `CURRENT_TIMESTAMP` can
  repeat across calls made within the same second.
* Python `None` becomes `Option.none`; Python string truthiness (where `None`
  and `""` are both falsy) is modelled by `truthy`.
* Fallible SQL statements (UNIQUE-constraint violations) return `Except`.
* `float('inf')` in `hamming_distance` is modelled by `Option.none`.
-/

namespace PublicSite

/-- Row of the `scenes` table (src/database.py, schema lines 82-105). -/
structure SceneRow where
  scene_id : String
  batch_name : String
  base_filename : String
  capture_date : Option String
  description : Option String
  description_model : Option String
  description_timestamp : Option String
  roll_number : Option String
  roll_date : Option String
  date_source : Option String
  date_notes : Option String
  roll_comment : Option String
  index_book_number : Option String
  index_book_date : Option String
  index_book_comment : Option String
  short_description : Option String
  created_at : Nat
  updated_at : Nat
deriving Repr, DecidableEq

/-- Row of the `image_versions` table (src/database.py, schema lines 123-140). -/
structure VersionRow where
  version_id : String
  scene_id : String
  version_type : String
  local_path : String
  r2_key : Option String
  perceptual_hash : Option String
  md5_hash : Option String
  file_size : Option Nat
  width : Option Nat
  height : Option Nat
  is_current : Bool
  created_at : Nat
  synced_at : Option Nat
deriving Repr, DecidableEq

/-- Row of the `sync_log` table (src/database.py, schema lines 68-79). -/
structure SyncLogRow where
  id : Nat
  sync_type : String
  images_synced : Nat
  metadata_updated : Nat
  started_at : Option Nat
  completed_at : Option Nat
  status : Option String
  error_message : Option String
deriving Repr, DecidableEq

/-- The persistent state managed by `PublicSiteDatabase`, restricted to the
tables the catalog / search / similarity / sync core touches, plus the
logical clock standing for wall-clock time. -/
structure DB where
  scenes : List SceneRow
  versions : List VersionRow
  sync_log : List SyncLogRow
  clock : Nat
deriving Repr, DecidableEq

def emptyDB : DB := { scenes := [], versions := [], sync_log := [], clock := 0 }

/-- One second of wall-clock time passing between operations.  The source
never advances time itself; `CURRENT_TIMESTAMP` simply reads the clock, so
two calls with no `tick` in between stamp the same value. -/
def DB.tick (db : DB) : DB := { db with clock := db.clock + 1 }

/-- Python truthiness of an optional string: `None` and `""` are falsy. -/
def truthy : Option String → Bool
  | none => false
  | some s => !s.isEmpty

/-- Character-level worker for `pyWords`: `acc` holds the current word's
characters in reverse. -/
def wordsAux : List Char → List Char → List String
  | [], acc => if acc.isEmpty then [] else [String.mk acc.reverse]
  | c :: cs, acc =>
    if c.isWhitespace then
      (if acc.isEmpty then [] else [String.mk acc.reverse]) ++ wordsAux cs []
    else wordsAux cs (c :: acc)

/-- Python `str.split()` with no argument: split on whitespace runs and drop
empty pieces. -/
def pyWords (s : String) : List String :=
  wordsAux s.data []

/-- Python `a or b` on two optional strings (used for
`scene_data.get('capture_date') or scene_data.get('roll_date')`). -/
def pyOr (a b : Option String) : Option String :=
  if truthy a then a else b

/-- `get_scene` (src/database.py lines 375-383): `SELECT * FROM scenes WHERE
scene_id = ?`; `scene_id` is the primary key so at most one row matches. -/
def DB.get_scene (db : DB) (scene_id : String) : Option SceneRow :=
  db.scenes.find? (fun s => s.scene_id = scene_id)

/-- The full field set passed to `create_or_update_scene`
(src/database.py lines 667-686); the Python keyword parameters are bundled
into one record. -/
structure SceneFields where
  scene_id : String
  batch_name : String
  base_filename : String
  capture_date : Option String := none
  description : Option String := none
  description_model : Option String := none
  description_timestamp : Option String := none
  roll_number : Option String := none
  roll_date : Option String := none
  date_source : Option String := none
  date_notes : Option String := none
  roll_comment : Option String := none
  index_book_number : Option String := none
  index_book_date : Option String := none
  index_book_comment : Option String := none
  short_description : Option String := none
deriving Repr, DecidableEq

/-- Overwrite every field of an existing scene row with the supplied field
set, stamping `updated_at` (the `DO UPDATE SET` arm of the upsert). -/
def applyFields (f : SceneFields) (now : Nat) (old : SceneRow) : SceneRow :=
  { old with
    batch_name := f.batch_name
    base_filename := f.base_filename
    capture_date := f.capture_date
    description := f.description
    description_model := f.description_model
    description_timestamp := f.description_timestamp
    roll_number := f.roll_number
    roll_date := f.roll_date
    date_source := f.date_source
    date_notes := f.date_notes
    roll_comment := f.roll_comment
    index_book_number := f.index_book_number
    index_book_date := f.index_book_date
    index_book_comment := f.index_book_comment
    short_description := f.short_description
    updated_at := now }

/-- A fresh scene row inserted by the upsert (the `INSERT` arm):
`created_at` and `updated_at` both default to the current timestamp. -/
def newSceneRow (f : SceneFields) (now : Nat) : SceneRow :=
  { scene_id := f.scene_id
    batch_name := f.batch_name
    base_filename := f.base_filename
    capture_date := f.capture_date
    description := f.description
    description_model := f.description_model
    description_timestamp := f.description_timestamp
    roll_number := f.roll_number
    roll_date := f.roll_date
    date_source := f.date_source
    date_notes := f.date_notes
    roll_comment := f.roll_comment
    index_book_number := f.index_book_number
    index_book_date := f.index_book_date
    index_book_comment := f.index_book_comment
    short_description := f.short_description
    created_at := now
    updated_at := now }

/-- `create_or_update_scene` (src/database.py lines 667-722):
`INSERT INTO scenes ... ON CONFLICT(scene_id) DO UPDATE SET` every field and
`updated_at = CURRENT_TIMESTAMP`.  The conflict target is only `scene_id`, so
a collision with the separate `UNIQUE(batch_name, base_filename)` constraint
raises `sqlite3.IntegrityError`, modelled as `Except.error`. -/
def DB.create_or_update_scene (db : DB) (f : SceneFields) : Except String DB :=
  match db.scenes.find? (fun s => s.scene_id = f.scene_id) with
  | some _ =>
    if db.scenes.any (fun s =>
        s.scene_id ≠ f.scene_id ∧ s.batch_name = f.batch_name ∧
        s.base_filename = f.base_filename) then
      Except.error "UNIQUE constraint failed: scenes.batch_name, scenes.base_filename"
    else
      Except.ok { db with
        scenes := db.scenes.map (fun s =>
          if s.scene_id = f.scene_id then applyFields f db.clock s else s) }
  | none =>
    if db.scenes.any (fun s =>
        s.batch_name = f.batch_name ∧ s.base_filename = f.base_filename) then
      Except.error "UNIQUE constraint failed: scenes.batch_name, scenes.base_filename"
    else
      Except.ok { db with
        scenes := db.scenes ++ [newSceneRow f db.clock] }

/-- The per-row effect of `UPDATE image_versions SET is_current = 0 WHERE
scene_id = ?`. -/
def clearCurrent (scene_id : String) (v : VersionRow) : VersionRow :=
  if v.scene_id = scene_id then { v with is_current := false } else v

/-- `create_version` (src/database.py lines 724-752).  If `is_current` is set
it first runs `UPDATE image_versions SET is_current = 0 WHERE scene_id = ?`,
then `INSERT OR REPLACE INTO image_versions ...` (replacing any row with the
same `version_id`; the replacement gets a fresh rowid, hence is appended, and
a fresh `created_at` default).  `synced_at` is
`datetime.now().isoformat() if r2_key else None`, where an empty-string
`r2_key` is falsy in Python. -/
def DB.create_version (db : DB) (version_id scene_id version_type local_path : String)
    (perceptual_hash md5_hash r2_key : Option String := none)
    (is_current : Bool := false) : DB :=
  let cleared := if is_current then
      db.versions.map (clearCurrent scene_id)
    else db.versions
  let newRow : VersionRow :=
    { version_id := version_id
      scene_id := scene_id
      version_type := version_type
      local_path := local_path
      r2_key := r2_key
      perceptual_hash := perceptual_hash
      md5_hash := md5_hash
      file_size := none
      width := none
      height := none
      is_current := is_current
      created_at := db.clock
      synced_at := if truthy r2_key then some db.clock else none }
  { db with
    versions := (cleared.filter (fun v => v.version_id ≠ version_id)) ++ [newRow] }

/-- `update_version_r2_key` (src/database.py lines 754-762). -/
def DB.update_version_r2_key (db : DB) (version_id : String) (r2_key : Option String) : DB :=
  { db with
    versions := db.versions.map (fun v =>
      if v.version_id = version_id then
        { v with r2_key := r2_key
                 synced_at := if truthy r2_key then some db.clock else none }
      else v) }

/-- `get_current_version_for_scene` (src/database.py lines 593-603):
`SELECT * FROM image_versions WHERE scene_id = ? AND is_current = 1 AND
r2_key IS NOT NULL LIMIT 1`. -/
def DB.get_current_version_for_scene (db : DB) (scene_id : String) : Option VersionRow :=
  db.versions.find? (fun v =>
    v.scene_id = scene_id ∧ v.is_current = true ∧ v.r2_key ≠ none)

/-- A row of the `get_live_versions` join: an image version together with the
owning scene's `batch_name`, `base_filename` and `capture_date`
(src/database.py lines 617-631). -/
structure LiveJoinRow where
  v : VersionRow
  batch_name : String
  base_filename : String
  capture_date : Option String
deriving Repr, DecidableEq

/-- The versions of `db` in `created_at DESC` order (stable among equal
timestamps, which SQLite leaves unspecified). -/
def sortByCreatedDesc (vs : List VersionRow) : List VersionRow :=
  vs.insertionSort (fun a b => b.created_at ≤ a.created_at)

/-- The full live working set: inner-join `image_versions` with `scenes`,
keep rows with `r2_key IS NOT NULL AND perceptual_hash IS NOT NULL`, in
`iv.created_at DESC` order. -/
def liveRows (db : DB) : List LiveJoinRow :=
  (sortByCreatedDesc db.versions).filterMap (fun v =>
    if v.r2_key ≠ none ∧ v.perceptual_hash ≠ none then
      (db.scenes.find? (fun s => s.scene_id = v.scene_id)).map (fun s =>
        { v := v
          batch_name := s.batch_name
          base_filename := s.base_filename
          capture_date := s.capture_date })
    else none)

/-- `get_live_versions` (src/database.py lines 617-631): the live join,
ordered by `iv.created_at DESC`, truncated by `LIMIT ?`. -/
def DB.get_live_versions (db : DB) (limit : Nat := 1000) : List LiveJoinRow :=
  (liveRows db).take limit

/-- Count of positions at which two equal-length strings differ. -/
def countDiff (a b : List Char) : Nat :=
  (a.zip b).countP (fun p => p.1 ≠ p.2)

/-- `hamming_distance` (src/database.py lines 638-642):
`if not hash1 or not hash2 or len(hash1) != len(hash2): return float('inf')`
— the infinite distance is modelled as `none`; otherwise the count of
differing character positions. -/
def hamming_distance (hash1 hash2 : String) : Option Nat :=
  if hash1.isEmpty ∨ hash2.isEmpty ∨ hash1.length ≠ hash2.length then none
  else some (countDiff hash1.data hash2.data)

/-- One element of the list returned by `find_similar_scenes`
(src/database.py lines 653-661). -/
structure SimilarResult where
  scene_id : String
  version_id : String
  distance : Nat
  r2_key : Option String
  batch_name : String
  base_filename : String
  capture_date : Option String
deriving Repr, DecidableEq

/-- The dict appended to `similar` for a candidate at distance `d`. -/
def mkSimilar (r : LiveJoinRow) (d : Nat) : SimilarResult :=
  { scene_id := r.v.scene_id
    version_id := r.v.version_id
    distance := d
    r2_key := r.v.r2_key
    batch_name := r.batch_name
    base_filename := r.base_filename
    capture_date := r.capture_date }

/-- The loop body of `find_similar_scenes` (src/database.py lines 648-661):
skip a candidate whose hash is falsy (`if not version.get('perceptual_hash'):
continue` — so the empty string is skipped as well), otherwise keep it when
the hamming distance is finite and at most the threshold
(`float('inf') <= threshold` is false for every finite threshold). -/
def similarCandidate (target_hash : String) (threshold : Nat) (r : LiveJoinRow) :
    Option SimilarResult :=
  match r.v.perceptual_hash with
  | none => none
  | some h =>
    if h.isEmpty then none
    else
      match hamming_distance target_hash h with
      | none => none
      | some d => if d ≤ threshold then some (mkSimilar r d) else none

/-- `find_similar_scenes` (src/database.py lines 633-665): load the live
versions (`self.get_live_versions(limit=10000)`), keep candidates within the
threshold, sort by distance (Python `list.sort` is stable) and truncate to
`limit`. -/
def DB.find_similar_scenes (db : DB) (target_hash : String)
    (threshold : Nat := 10) (limit : Nat := 20) : List SimilarResult :=
  let live := db.get_live_versions 10000
  let similar := live.filterMap (similarCandidate target_hash threshold)
  (similar.insertionSort (fun a b => a.distance ≤ b.distance)).take limit

/-- Words of an optional text field (empty for `NULL`). -/
def optWords : Option String → List String
  | none => []
  | some t => pyWords t

/-- The tokens of the scene fields indexed by the `scenes_fts` FTS5 table
(src/database.py lines 160-172): `base_filename`, `description`,
`roll_comment`, `date_notes`, `index_book_comment`, `short_description`
(`scene_id` is UNINDEXED).  FTS5's default tokenizer is abstracted as
whitespace tokenization. -/
def sceneTokens (s : SceneRow) : List String :=
  pyWords s.base_filename ++ optWords s.description ++ optWords s.roll_comment ++
    optWords s.date_notes ++ optWords s.index_book_comment ++
    optWords s.short_description

/-- A single FTS5 term matches a scene when it occurs among the indexed
tokens of that scene (abstraction of `scenes_fts MATCH term`). -/
def ftsTermMatch (term : String) (s : SceneRow) : Bool :=
  (sceneTokens s).contains term

/-- The FTS clause built by `search_scenes_fts` (src/database.py lines
439-459): `query_terms = [term.strip() for term in query.split() if
term.strip()]`; with more than one term the terms are joined with `" OR "`
(FTS5 disjunction), otherwise the raw query is passed verbatim, which for a
single plain term is a one-term match. -/
def ftsQueryMatch (query : String) (s : SceneRow) : Bool :=
  let terms := pyWords query
  if terms.length > 1 then terms.any (fun t => ftsTermMatch t s)
  else
    match terms with
    | [t] => ftsTermMatch t s
    | _ => false

/-- The `WHERE` clause of `search_scenes_fts` (src/database.py lines
434-478): the FTS clause is added only when `query` is truthy, and each
facet filter only when its parameter is truthy; filters are `AND`-combined
equality tests against the scene columns (`NULL = x` is false in SQL). -/
def scenePred (query : String) (roll_number roll_date batch_name date_source : Option String)
    (s : SceneRow) : Bool :=
  (if query.isEmpty then true else ftsQueryMatch query s) &&
  (if truthy roll_number then s.roll_number == roll_number else true) &&
  (if truthy roll_date then s.roll_date == roll_date else true) &&
  (if truthy batch_name then some s.batch_name == batch_name else true) &&
  (if truthy date_source then s.date_source == date_source else true)

/-- Lexicographic code-point comparison of strings (SQLite's BINARY
collation; on UTF-8 text byte order and code-point order agree). -/
def lexLe : List Char → List Char → Bool
  | [], _ => true
  | _ :: _, [] => false
  | a :: as, b :: bs =>
    if a.toNat < b.toNat then true
    else if b.toNat < a.toNat then false
    else lexLe as bs

theorem lexLe_total : ∀ as bs : List Char, lexLe as bs = true ∨ lexLe bs as = true
  | [], _ => Or.inl rfl
  | _ :: _, [] => Or.inr rfl
  | a :: as, b :: bs => by
    by_cases hab : a.toNat < b.toNat
    · exact Or.inl (by simp [lexLe, hab])
    · by_cases hba : b.toNat < a.toNat
      · exact Or.inr (by simp [lexLe, hba, hab])
      · rcases lexLe_total as bs with h | h
        · exact Or.inl (by simp [lexLe, hab, hba, h])
        · exact Or.inr (by simp [lexLe, hab, hba, h])

theorem lexLe_trans : ∀ as bs cs : List Char,
    lexLe as bs = true → lexLe bs cs = true → lexLe as cs = true
  | [], _, _ => fun _ _ => rfl
  | _ :: _, [], _ => fun h _ => by cases h
  | _ :: _, _ :: _, [] => fun _ h => by cases h
  | a :: as, b :: bs, c :: cs => by
    intro h1 h2
    simp only [lexLe] at h1 h2 ⊢
    split_ifs at h1 h2 ⊢ <;>
      first
        | rfl
        | (exact Bool.noConfusion h1)
        | (exact Bool.noConfusion h2)
        | (exact lexLe_trans as bs cs h1 h2)
        | (exfalso; omega)

/-- Facet ordering `ORDER BY count DESC, value ASC` as a binary relation. -/
def facetLeAsc (a b : String × Nat) : Prop :=
  b.2 < a.2 ∨ (a.2 = b.2 ∧ lexLe a.1.data b.1.data = true)

/-- Facet ordering `ORDER BY count DESC, value DESC` (used for dates). -/
def facetLeDesc (a b : String × Nat) : Prop :=
  b.2 < a.2 ∨ (a.2 = b.2 ∧ lexLe b.1.data a.1.data = true)

instance : DecidableRel facetLeAsc := fun a b => by
  unfold facetLeAsc; infer_instance

instance : DecidableRel facetLeDesc := fun a b => by
  unfold facetLeDesc; infer_instance

/-- `SELECT value, COUNT(*) ... GROUP BY value` over the filtered scene set:
each distinct non-`NULL` value paired with the number of matched scenes
holding it. -/
def facetPairs (key : SceneRow → Option String) (matched : List SceneRow) :
    List (String × Nat) :=
  ((matched.filterMap key).dedup).map (fun v =>
    (v, matched.countP (fun s => key s = some v)))

/-- `ORDER BY count DESC, value ASC/DESC LIMIT k` over the grouped pairs. -/
def facetTop (k : Nat) (le : String × Nat → String × Nat → Prop) [DecidableRel le]
    (key : SceneRow → Option String) (matched : List SceneRow) : List (String × Nat) :=
  ((facetPairs key matched).insertionSort le).take k

/-- The `facets` dict of `search_scenes_fts` (src/database.py lines
497-550): a dimension pinned by a truthy filter is omitted (`none`).
`roll_numbers` and `batch_names` order ties by value ascending, `roll_dates`
by value descending, each `LIMIT 20`; `date_sources` is `ORDER BY count DESC
LIMIT 10` — SQLite leaves its tie order unspecified and the model resolves
ties by value ascending. -/
structure SearchFacets where
  roll_numbers : Option (List (String × Nat))
  roll_dates : Option (List (String × Nat))
  batch_names : Option (List (String × Nat))
  date_sources : Option (List (String × Nat))
deriving Repr, DecidableEq

/-- The dict returned by `search_scenes_fts` (src/database.py lines
552-556). -/
structure SearchOut where
  results : List SceneRow
  total : Nat
  facets : SearchFacets
deriving Repr, DecidableEq

/-- `search_scenes_fts` (src/database.py lines 418-556): filter the scenes
by the FTS clause and the truthy facet filters, order the page of results by
`updated_at DESC` with `LIMIT ? OFFSET ?`, count the total, and compute the
facet lists for the unpinned dimensions over the same filtered set
(`roll_number`, `roll_date` and `date_source` facets exclude `NULL`;
`batch_name` is `NOT NULL` by schema). -/
def DB.search_scenes_fts (db : DB) (query : String)
    (roll_number roll_date batch_name date_source : Option String := none)
    (limit : Nat := 100) (offset : Nat := 0) : SearchOut :=
  let matched := db.scenes.filter (scenePred query roll_number roll_date batch_name date_source)
  { results :=
      ((matched.insertionSort (fun a b => b.updated_at ≤ a.updated_at)).drop offset).take limit
    total := matched.length
    facets :=
      { roll_numbers :=
          if truthy roll_number then none
          else some (facetTop 20 facetLeAsc (fun s => s.roll_number) matched)
        roll_dates :=
          if truthy roll_date then none
          else some (facetTop 20 facetLeDesc (fun s => s.roll_date) matched)
        batch_names :=
          if truthy batch_name then none
          else some (facetTop 20 facetLeAsc (fun s => some s.batch_name) matched)
        date_sources :=
          if truthy date_source then none
          else some (facetTop 10 facetLeAsc (fun s => s.date_source) matched) } }

/-- One entry of a version list in the `/api/admin/sync/data` payload
(src/main.py lines 847-856).  The dict keys `version_id` and `version_type`
are accessed with `[]` (required), the rest with `.get` (optional); a batch
whose dicts carry the required keys is a well-formed batch, which the typed
record captures. -/
structure VersionInput where
  version_id : String
  version_type : String
  local_path : Option String := none
  perceptual_hash : Option String := none
  is_current : Bool := false
  file_size : Option Nat := none
deriving Repr, DecidableEq

/-- One scene entry of the `/api/admin/sync/data` payload (src/main.py lines
842-886): `scene_id`, `batch_name` and `base_filename` are required keys,
everything else is accessed with `.get`. -/
structure SceneInput where
  scene_id : String
  batch_name : String
  base_filename : String
  capture_date : Option String := none
  description : Option String := none
  description_model : Option String := none
  description_timestamp : Option String := none
  roll_number : Option String := none
  roll_date : Option String := none
  date_source : Option String := none
  date_notes : Option String := none
  roll_comment : Option String := none
  index_book_number : Option String := none
  index_book_date : Option String := none
  index_book_comment : Option String := none
  short_description : Option String := none
  versions : List VersionInput := []
deriving Repr, DecidableEq

/-- The `stats` dict of the sync endpoint (src/main.py lines 890-895). -/
structure SyncStats where
  scenes_synced : Nat
  images_marked_live : Nat
  images_skipped : Nat
  errors : Nat
deriving Repr, DecidableEq

/-- The success response of the sync endpoint (src/main.py lines 906-917);
the float `progress.percentage` is omitted from the model. -/
structure SyncResponse where
  message : String
  sync_id : Nat
  stats : SyncStats
  dry_run : Bool
  total_scenes : Nat
deriving Repr, DecidableEq

/-- `log_sync` (src/database.py lines 335-351): insert a `sync_log` row with
`started_at = CURRENT_TIMESTAMP` and return `lastrowid` (the table is
append-only, so the fresh id is the row count plus one). -/
def DB.log_sync (db : DB) (sync_type : String) (images_synced : Nat := 0)
    (metadata_updated : Nat := 0) (status : String := "in_progress")
    (error_message : Option String := none) : Nat × DB :=
  let id := db.sync_log.length + 1
  (id,
   { db with
     sync_log := db.sync_log ++
       [{ id := id
          sync_type := sync_type
          images_synced := images_synced
          metadata_updated := metadata_updated
          started_at := some db.clock
          completed_at := none
          status := some status
          error_message := error_message }] })

/-- `update_sync_log` (src/database.py lines 353-363). -/
def DB.update_sync_log (db : DB) (sync_id : Nat) (status : String)
    (images_synced : Nat := 0) (metadata_updated : Nat := 0)
    (error_message : Option String := none) : DB :=
  { db with
    sync_log := db.sync_log.map (fun r =>
      if r.id = sync_id then
        { r with status := some status
                 images_synced := images_synced
                 metadata_updated := metadata_updated
                 completed_at := some db.clock
                 error_message := error_message }
      else r) }

/-- The `/api/admin/sync/data` endpoint `sync_data` (src/main.py lines
820-921), for an already-authorized admin and a well-formed (typed) batch.
It logs an in-progress sync, prepares the batch (a pure transformation), and
then: in dry-run mode it computes the stats without touching scenes or
versions and logs success; otherwise it calls
`public_db.batch_sync_scenes(scenes_for_batch)`, but `PublicSiteDatabase`
(src/database.py) defines no method `batch_sync_scenes`, so the call raises
`AttributeError`, which the `except` block turns into a failed sync-log entry
and `HTTPException(status_code=500)`, modelled as `Except.error 500`. -/
def sync_data (db : DB) (scenes : List SceneInput) (dry_run : Bool) :
    Except Nat SyncResponse × DB :=
  let r := db.log_sync "api_sync"
  let sync_id := r.1
  let db1 := r.2
  if dry_run then
    let stats : SyncStats :=
      { scenes_synced := scenes.length
        images_marked_live := (scenes.map (fun s => s.versions.countP (fun v => v.is_current))).sum
        images_skipped := 0
        errors := 0 }
    let db2 := db1.update_sync_log sync_id "success" stats.images_marked_live stats.scenes_synced
    (Except.ok
      { message := "Sync completed"
        sync_id := sync_id
        stats := stats
        dry_run := true
        total_scenes := scenes.length }, db2)
  else
    let db2 := db1.update_sync_log sync_id "failed" 0 0
      (some "'PublicSiteDatabase' object has no attribute 'batch_sync_scenes'")
    (Except.error 500, db2)

/-! ## Specification-side definitions

These definitions follow the wording of the specification's claims (for the
refinement / counterexample statements); they are deliberately written
independently of the source-translated functions above. -/

/-- The candidate test exactly as the claim states it: a live version is kept
iff its hash has the same length as the target's and the count of differing
character positions is at most the threshold (no exclusion of empty
hashes). -/
def similarCandidateClaim (target_hash : String) (threshold : Nat) (r : LiveJoinRow) :
    Option SimilarResult :=
  match r.v.perceptual_hash with
  | none => none
  | some h =>
    if h.length = target_hash.length ∧ countDiff target_hash.data h.data ≤ threshold then
      some (mkSimilar r (countDiff target_hash.data h.data))
    else none

/-- `findSimilar` as the claim words it: keep exactly the live versions whose
hash length equals the target's and whose character-mismatch count is at most
the threshold; order by distance ascending, stable among ties (realised as
concatenation of the distance buckets in scan order); truncate to `limit`. -/
def findSimilarClaim (db : DB) (target_hash : String) (threshold limit : Nat) :
    List SimilarResult :=
  let cands := (liveRows db).filterMap (similarCandidateClaim target_hash threshold)
  (((List.range (threshold + 1)).map (fun d =>
      cands.filter (fun x => x.distance == d))).flatten).take limit

/-- The candidate test of the amended claim: additionally both the target
hash and the candidate hash must be non-empty (the code treats an empty hash
as infinitely distant). -/
def similarCandidateSpec (target_hash : String) (threshold : Nat) (r : LiveJoinRow) :
    Option SimilarResult :=
  match r.v.perceptual_hash with
  | none => none
  | some h =>
    if ¬target_hash.isEmpty ∧ ¬h.isEmpty ∧ h.length = target_hash.length ∧
        countDiff target_hash.data h.data ≤ threshold then
      some (mkSimilar r (countDiff target_hash.data h.data))
    else none

/-- What it means for `out` to be the claim's facet list: the up-to-`k` most
frequent pairs of `pairs` (the grouped value/count pairs of the filtered
result set), ordered by `le` (count descending with the value tie-break):
`out` has `min k pairs.length` entries, is sorted, consists of distinct
entries of `pairs`, and every entry of `pairs` left out is dominated by every
entry kept. -/
def IsTopFacet {α : Type} (k : Nat) (le : α → α → Prop) (pairs out : List α) : Prop :=
  out.length = min k pairs.length ∧ List.Sorted le out ∧ out ⊆ pairs ∧ out.Nodup ∧
    ∀ p ∈ pairs, p ∉ out → ∀ q ∈ out, le q p

/-! ## Helper lemmas -/

/-- Stability of `orderedInsert` for a `Nat` key: inserting `a` into `l`
with the non-strict key order puts `a` before every element of equal key, so
filtering any single key class gives the same list as for `a :: l`. -/
theorem filter_key_orderedInsert {α : Type} (k : α → Nat) (d : Nat) (a : α) :
    ∀ l : List α,
      List.filter (fun x => k x == d) (l.orderedInsert (fun x y => k x ≤ k y) a) =
        List.filter (fun x => k x == d) (a :: l)
  | [] => rfl
  | b :: t => by
    simp only [List.orderedInsert]
    by_cases hab : k a ≤ k b
    · rw [if_pos hab]
    · rw [if_neg hab]
      have hba : k b < k a := Nat.lt_of_not_le hab
      have ih := filter_key_orderedInsert k d a t
      by_cases had : k a = d
      · have hbd : (k b == d) = false := by
          simp only [beq_eq_false_iff_ne]; omega
        have had2 : (k a == d) = true := by simp [had]
        simp [List.filter_cons, hbd, had2, ih]
      · have had2 : (k a == d) = false := by simp [had]
        simp [List.filter_cons, had2, ih]

/-- Stability of `insertionSort` for a `Nat` key: each key class of the
sorted output is the key class of the input, in input order. -/
theorem filter_key_insertionSort {α : Type} (k : α → Nat) (d : Nat) :
    ∀ l : List α,
      List.filter (fun x => k x == d) (l.insertionSort (fun x y => k x ≤ k y)) =
        List.filter (fun x => k x == d) l
  | [] => rfl
  | a :: t => by
    simp only [List.insertionSort]
    rw [filter_key_orderedInsert, List.filter_cons, List.filter_cons,
      filter_key_insertionSort k d t]

instance : IsTotal (String × Nat) facetLeAsc :=
  ⟨by
    intro a b
    unfold facetLeAsc
    rcases Nat.lt_trichotomy a.2 b.2 with h | h | h
    · exact Or.inr (Or.inl h)
    · rcases lexLe_total a.1.data b.1.data with hs | hs
      · exact Or.inl (Or.inr ⟨h, hs⟩)
      · exact Or.inr (Or.inr ⟨h.symm, hs⟩)
    · exact Or.inl (Or.inl h)⟩

instance : IsTrans (String × Nat) facetLeAsc :=
  ⟨by
    intro a b c h1 h2
    unfold facetLeAsc at h1 h2 ⊢
    rcases h1 with h1 | ⟨h1e, h1s⟩ <;> rcases h2 with h2 | ⟨h2e, h2s⟩
    · exact Or.inl (by omega)
    · exact Or.inl (by omega)
    · exact Or.inl (by omega)
    · exact Or.inr ⟨by omega, lexLe_trans _ _ _ h1s h2s⟩⟩

instance : IsTotal (String × Nat) facetLeDesc :=
  ⟨by
    intro a b
    unfold facetLeDesc
    rcases Nat.lt_trichotomy a.2 b.2 with h | h | h
    · exact Or.inr (Or.inl h)
    · rcases lexLe_total a.1.data b.1.data with hs | hs
      · exact Or.inr (Or.inr ⟨h.symm, hs⟩)
      · exact Or.inl (Or.inr ⟨h, hs⟩)
    · exact Or.inl (Or.inl h)⟩

instance : IsTrans (String × Nat) facetLeDesc :=
  ⟨by
    intro a b c h1 h2
    unfold facetLeDesc at h1 h2 ⊢
    rcases h1 with h1 | ⟨h1e, h1s⟩ <;> rcases h2 with h2 | ⟨h2e, h2s⟩
    · exact Or.inl (by omega)
    · exact Or.inl (by omega)
    · exact Or.inl (by omega)
    · exact Or.inr ⟨by omega, lexLe_trans _ _ _ h2s h1s⟩⟩

/-- Sorting then truncating yields the top-`k` list in the sense of
`IsTopFacet`, for any total transitive order. -/
theorem isTopFacet_insertionSort_take {α : Type} (k : Nat) (le : α → α → Prop)
    [DecidableRel le] [IsTotal α le] [IsTrans α le] (pairs : List α)
    (hnd : pairs.Nodup) :
    IsTopFacet k le pairs ((pairs.insertionSort le).take k) := by
  have hperm : List.Perm (pairs.insertionSort le) pairs := List.perm_insertionSort le pairs
  have hsorted : List.Sorted le (pairs.insertionSort le) := List.sorted_insertionSort le pairs
  refine ⟨?_, ?_, ?_, ?_, ?_⟩
  · rw [List.length_take, hperm.length_eq]
  · exact List.Pairwise.sublist (List.take_sublist k _) hsorted
  · exact fun x hx => hperm.subset (List.take_subset k _ hx)
  · exact List.Nodup.sublist (List.take_sublist k _) (hperm.nodup_iff.mpr hnd)
  · intro p hp hnp q hq
    have hs2 : List.Pairwise le
        ((pairs.insertionSort le).take k ++ (pairs.insertionSort le).drop k) := by
      rw [List.take_append_drop]; exact hsorted
    have hcross := (List.pairwise_append.mp hs2).2.2
    have hpmem : p ∈ pairs.insertionSort le := hperm.mem_iff.mpr hp
    have hpd : p ∈ (pairs.insertionSort le).drop k := by
      rcases List.mem_append.mp (by (rw [List.take_append_drop]; exact hpmem) :
          p ∈ (pairs.insertionSort le).take k ++ (pairs.insertionSort le).drop k) with h | h
      · exact absurd h hnp
      · exact h
    exact hcross q hq p hpd

/-- The grouped facet pairs are duplicate-free (one pair per distinct
value). -/
theorem facetPairs_nodup (key : SceneRow → Option String) (matched : List SceneRow) :
    (facetPairs key matched).Nodup := by
  unfold facetPairs
  exact List.Nodup.map (fun a b hab => congrArg Prod.fst hab)
    (List.nodup_dedup _)

theorem clearCurrent_scene_id (sid : String) (v : VersionRow) :
    (clearCurrent sid v).scene_id = v.scene_id := by
  unfold clearCurrent; split <;> rfl

theorem clearCurrent_is_current (sid : String) (v : VersionRow) :
    (clearCurrent sid v).is_current = true ↔ v.is_current = true ∧ v.scene_id ≠ sid := by
  unfold clearCurrent
  split
  · simp [*]
  · simp [*]

/-! ## Concrete states for witnesses and counterexamples -/

/-- A scene row with only the mandatory fields populated. -/
def baseScene (sid bn fn : String) (t : Nat) : SceneRow :=
  { scene_id := sid, batch_name := bn, base_filename := fn,
    capture_date := none, description := none, description_model := none,
    description_timestamp := none, roll_number := none, roll_date := none,
    date_source := none, date_notes := none, roll_comment := none,
    index_book_number := none, index_book_date := none,
    index_book_comment := none, short_description := none,
    created_at := t, updated_at := t }

/-- A version row with the fields `create_version` populates. -/
def baseVersion (vid sid : String) (hash key : Option String) (cur : Bool) (t : Nat) :
    VersionRow :=
  { version_id := vid, scene_id := sid, version_type := "final_crop",
    local_path := "/p", r2_key := key, perceptual_hash := hash,
    md5_hash := none, file_size := none, width := none, height := none,
    is_current := cur, created_at := t, synced_at := none }

/-- Three scenes, each with one current live version; hashes
`"ffff"`, `"fffe"`, `"0000"` (the spec's similarity example). -/
def simDb : DB :=
  { scenes := [baseScene "s1" "B" "f1" 1, baseScene "s2" "B" "f2" 2,
               baseScene "s3" "B" "f3" 3]
    versions := [baseVersion "v1" "s1" (some "ffff") (some "k1") true 1,
                 baseVersion "v2" "s2" (some "fffe") (some "k2") true 2,
                 baseVersion "v3" "s3" (some "0000") (some "k3") true 3]
    sync_log := []
    clock := 10 }

/-- One live version whose stored perceptual hash is the empty string. -/
def emptyHashDb : DB :=
  { scenes := [baseScene "s1" "B" "f1" 1]
    versions := [baseVersion "v1" "s1" (some "") (some "k1") true 1]
    sync_log := []
    clock := 10 }

/-- A one-scene batch whose single version is marked current. -/
def demoBatch : List SceneInput :=
  [{ scene_id := "s1", batch_name := "B", base_filename := "f1",
     versions := [{ version_id := "v1", version_type := "final_crop",
                    is_current := true }] }]

/-! ## Claim theorems -/

/-- **C9** (code bug evidence): `create_version` called with a `scene_id`
naming no existing scene does not fail — it inserts an orphan image-version
row (SQLite foreign keys are never enabled by `get_connection`, and the
function performs no existence check), contradicting the claimed
`SceneNotFound` rejection. -/
theorem create_version_orphan_inserted :
    (emptyDB.create_version "v1" "ghost" "final_crop" "/imgs/a.jpg").versions =
      [{ version_id := "v1", scene_id := "ghost", version_type := "final_crop",
         local_path := "/imgs/a.jpg", r2_key := none, perceptual_hash := none,
         md5_hash := none, file_size := none, width := none, height := none,
         is_current := false, created_at := 0, synced_at := none }] ∧
    emptyDB.scenes.all (fun s => s.scene_id ≠ "ghost") = true := by
  constructor
  · rfl
  · rfl

/-- **C4** (code bug evidence): a non-dry-run sync call on a concrete batch
fails with a 500-class error and leaves scenes and versions untouched, on
the first call and again on the identical second call — it never returns the
`scenesSynced` / `versionsMarkedLive` counts the claim speaks about, because
`batch_sync_scenes` does not exist on the database layer. -/
theorem sync_non_dry_run_raises :
    (sync_data emptyDB demoBatch false).1 = Except.error 500 ∧
    (sync_data emptyDB demoBatch false).2.scenes = emptyDB.scenes ∧
    (sync_data emptyDB demoBatch false).2.versions = emptyDB.versions ∧
    (sync_data (sync_data emptyDB demoBatch false).2 demoBatch false).1 =
      Except.error 500 ∧
    (sync_data (sync_data emptyDB demoBatch false).2 demoBatch false).2.scenes =
      emptyDB.scenes ∧
    (sync_data (sync_data emptyDB demoBatch false).2 demoBatch false).2.versions =
      emptyDB.versions := by
  refine ⟨rfl, rfl, rfl, rfl, rfl, rfl⟩

/-- **C5**: for every state and non-empty (well-formed, hence typed) batch,
the dry-run sync returns success with `scenes_synced` equal to the number of
scenes in the batch (hence non-zero) and `images_marked_live` equal to the
number of versions marked current in the batch, and every `get_scene` /
`get_current_version_for_scene` result is unchanged. -/
theorem sync_dry_run_no_mutation :
    ∀ (db : DB) (scenes : List SceneInput), scenes ≠ [] →
      ∃ resp, (sync_data db scenes true).1 = Except.ok resp ∧
        resp.stats.scenes_synced = scenes.length ∧
        0 < resp.stats.scenes_synced ∧
        resp.stats.images_marked_live =
          (scenes.map (fun s => s.versions.countP (fun v => v.is_current))).sum ∧
        (∀ sid, (sync_data db scenes true).2.get_scene sid = db.get_scene sid) ∧
        (∀ sid, (sync_data db scenes true).2.get_current_version_for_scene sid =
          db.get_current_version_for_scene sid) := by
  intro db scenes hne
  refine ⟨_, rfl, rfl, List.length_pos.mpr hne, rfl, fun sid => rfl, fun sid => rfl⟩

theorem sync_dry_run_no_mutation_witness :
    ∃ resp, (sync_data simDb demoBatch true).1 = Except.ok resp ∧
      resp.stats.scenes_synced = demoBatch.length ∧
      0 < resp.stats.scenes_synced ∧
      resp.stats.images_marked_live =
        (demoBatch.map (fun s => s.versions.countP (fun v => v.is_current))).sum ∧
      (∀ sid, (sync_data simDb demoBatch true).2.get_scene sid = simDb.get_scene sid) ∧
      (∀ sid, (sync_data simDb demoBatch true).2.get_current_version_for_scene sid =
        simDb.get_current_version_for_scene sid) :=
  sync_dry_run_no_mutation simDb demoBatch (by decide)

/-- **C6**: every non-dry-run sync call fails with a 500-class error —
`sync_data` invokes `batch_sync_scenes`, which `PublicSiteDatabase` does not
define — and commits no scene or version change; only dry-run calls can
return a success outcome. -/
theorem sync_success_only_dry_run :
    ∀ (db : DB) (scenes : List SceneInput), scenes ≠ [] →
      ((sync_data db scenes false).1 = Except.error 500 ∧
       (sync_data db scenes false).2.scenes = db.scenes ∧
       (sync_data db scenes false).2.versions = db.versions) ∧
      (∀ (dr : Bool) (resp : SyncResponse),
        (sync_data db scenes dr).1 = Except.ok resp → dr = true) := by
  intro db scenes hne
  refine ⟨⟨rfl, rfl, rfl⟩, ?_⟩
  intro dr resp h
  cases dr with
  | true => rfl
  | false => exact Except.noConfusion h

theorem sync_success_only_dry_run_witness :
    ((sync_data simDb demoBatch false).1 = Except.error 500 ∧
     (sync_data simDb demoBatch false).2.scenes = simDb.scenes ∧
     (sync_data simDb demoBatch false).2.versions = simDb.versions) ∧
    (∀ (dr : Bool) (resp : SyncResponse),
      (sync_data simDb demoBatch dr).1 = Except.ok resp → dr = true) :=
  sync_success_only_dry_run simDb demoBatch (by decide)

/-- **C3**: `get_current_version_for_scene` returns a version only if it
belongs to the scene, is marked current and has a non-null storage key; and
it returns nothing exactly when no version of the scene satisfies all three
conditions (in particular when the current version's key is null, even if
other live versions exist). -/
theorem get_current_version_live_only :
    ∀ (db : DB) (sid : String),
      (∀ v, db.get_current_version_for_scene sid = some v →
        v.scene_id = sid ∧ v.is_current = true ∧ v.r2_key ≠ none) ∧
      (db.get_current_version_for_scene sid = none ↔
        ∀ v ∈ db.versions,
          ¬(v.scene_id = sid ∧ v.is_current = true ∧ v.r2_key ≠ none)) := by
  intro db sid
  constructor
  · intro v hv
    have := List.find?_some hv
    simpa using this
  · unfold DB.get_current_version_for_scene
    rw [List.find?_eq_none]
    constructor
    · intro h v hv
      have := h v hv
      simpa using this
    · intro h v hv
      simpa using h v hv

theorem get_current_version_live_only_witness :
    (baseVersion "v1" "s1" (some "ffff") (some "k1") true 1).scene_id = "s1" ∧
    (baseVersion "v1" "s1" (some "ffff") (some "k1") true 1).is_current = true ∧
    (baseVersion "v1" "s1" (some "ffff") (some "k1") true 1).r2_key ≠ none :=
  (get_current_version_live_only simDb "s1").1 _ rfl

/-- The "at most one current version per scene" invariant: no two distinct
version rows of the same scene are both marked current. -/
def AtMostOneCurrent (db : DB) : Prop :=
  db.versions.Pairwise (fun v w =>
    ¬(v.is_current = true ∧ w.is_current = true ∧ v.scene_id = w.scene_id))

/-- **C2**: the empty store satisfies the one-current-version invariant,
every `create_version` call preserves it, and when `is_current` is set the
inserted/replaced version is the unique current version of its scene (all
siblings were cleared first). -/
theorem create_version_preserves_single_current :
    AtMostOneCurrent emptyDB ∧
    ∀ (db : DB) (vid sid vt lp : String) (ph mh rk : Option String) (cur : Bool),
      AtMostOneCurrent db →
      AtMostOneCurrent (db.create_version vid sid vt lp ph mh rk cur) ∧
      (cur = true →
        ∀ v ∈ (db.create_version vid sid vt lp ph mh rk cur).versions,
          v.scene_id = sid → (v.is_current = true ↔ v.version_id = vid)) := by
  constructor
  · exact List.Pairwise.nil
  · intro db vid sid vt lp ph mh rk cur h
    unfold AtMostOneCurrent at h
    cases cur with
    | false =>
      constructor
      · unfold AtMostOneCurrent DB.create_version
        simp only [Bool.false_eq_true, if_false]
        rw [List.pairwise_append]
        refine ⟨List.Pairwise.sublist (List.filter_sublist _) h,
          List.pairwise_singleton _ _, ?_⟩
        intro a _ b hb
        rw [List.mem_singleton] at hb
        subst hb
        rintro ⟨_, h2, _⟩
        simp at h2
      · intro hcur
        cases hcur
    | true =>
      have hmap : (db.versions.map (clearCurrent sid)).Pairwise (fun v w =>
          ¬(v.is_current = true ∧ w.is_current = true ∧ v.scene_id = w.scene_id)) := by
        rw [List.pairwise_map]
        refine h.imp ?_
        intro a b hab hcontra
        rcases hcontra with ⟨h1, h2, h3⟩
        rw [clearCurrent_is_current] at h1 h2
        rw [clearCurrent_scene_id, clearCurrent_scene_id] at h3
        exact hab ⟨h1.1, h2.1, h3⟩
      have hnotcur : ∀ a ∈ db.versions.map (clearCurrent sid),
          a.scene_id = sid → a.is_current = false := by
        intro a ha hsc
        rcases List.mem_map.mp ha with ⟨b, _, rfl⟩
        by_cases hbs : b.scene_id = sid
        · simp [clearCurrent, hbs]
        · rw [clearCurrent_scene_id] at hsc
          exact absurd hsc hbs
      constructor
      · unfold AtMostOneCurrent DB.create_version
        simp only [if_true]
        rw [List.pairwise_append]
        refine ⟨List.Pairwise.sublist (List.filter_sublist _) hmap,
          List.pairwise_singleton _ _, ?_⟩
        intro a ha b hb
        rw [List.mem_singleton] at hb
        subst hb
        rintro ⟨h1, _, h3⟩
        have ha' := List.mem_of_mem_filter ha
        have := hnotcur a ha' h3
        rw [h1] at this
        cases this
      · intro _ v hv hsc
        unfold DB.create_version at hv
        simp only [if_true] at hv
        rcases List.mem_append.mp hv with hv' | hv'
        · constructor
          · intro h1
            have := hnotcur v (List.mem_of_mem_filter hv') hsc
            rw [h1] at this
            cases this
          · intro hvid
            have hp := (List.mem_filter.mp hv').2
            rw [hvid] at hp
            simp at hp
        · rw [List.mem_singleton] at hv'
          subst hv'
          simp

theorem create_version_preserves_single_current_witness :
    AtMostOneCurrent (simDb.create_version "v4" "s1" "final_crop" "/p" none none
      (some "k4") true) ∧
    (∀ v ∈ (simDb.create_version "v4" "s1" "final_crop" "/p" none none
        (some "k4") true).versions,
      v.scene_id = "s1" → (v.is_current = true ↔ v.version_id = "v4")) :=
  ⟨(create_version_preserves_single_current.2 simDb "v4" "s1" "final_crop" "/p"
      none none (some "k4") true (by unfold AtMostOneCurrent; decide)).1,
   (create_version_preserves_single_current.2 simDb "v4" "s1" "final_crop" "/p"
      none none (some "k4") true (by unfold AtMostOneCurrent; decide)).2 rfl⟩

theorem applyFields_scene_id (f : SceneFields) (now : Nat) (s : SceneRow) :
    (applyFields f now s).scene_id = s.scene_id := rfl

/-- Updating every key-matching row in place commutes with looking up the
first key match. -/
theorem find?_map_update (f : SceneFields) (now : Nat) :
    ∀ (l : List SceneRow) (old : SceneRow),
      l.find? (fun s => s.scene_id = f.scene_id) = some old →
      (l.map (fun s => if s.scene_id = f.scene_id then applyFields f now s else s)).find?
          (fun s => s.scene_id = f.scene_id) = some (applyFields f now old)
  | [], old => by intro h; cases h
  | a :: t, old => by
    intro h
    by_cases ha : a.scene_id = f.scene_id
    · rw [List.find?_cons_of_pos _ (by simpa using ha)] at h
      obtain rfl := Option.some.inj h
      rw [List.map_cons, if_pos ha,
        List.find?_cons_of_pos _ (by simpa using (applyFields_scene_id f now a).trans ha)]
    · rw [List.find?_cons_of_neg _ (by simpa using ha)] at h
      rw [List.map_cons, if_neg ha, List.find?_cons_of_neg _ (by simpa using ha)]
      exact find?_map_update f now t old h

/-- `find?` skips a prefix that contains no match. -/
theorem find?_append_none {α : Type} (p : α → Bool) :
    ∀ (l₁ : List α), l₁.find? p = none → ∀ l₂, (l₁ ++ l₂).find? p = l₂.find? p
  | [], _, _ => rfl
  | a :: t, h, l₂ => by
    have hpa : p a = false := by
      cases hpa : p a with
      | false => rfl
      | true => rw [List.find?_cons_of_pos _ hpa] at h; cases h
    rw [List.find?_cons_of_neg _ (by simp [hpa])] at h
    rw [List.cons_append, List.find?_cons_of_neg _ (by simp [hpa])]
    exact find?_append_none p t h l₂

/-- The field set of the first same-second upsert. -/
def rtF0 : SceneFields :=
  { scene_id := "s1", batch_name := "B", base_filename := "f1" }

/-- The field set of the second same-second upsert (it changes the
description, so the overwrite is observable). -/
def rtF1 : SceneFields :=
  { scene_id := "s1", batch_name := "B", base_filename := "f1",
    description := some "second write" }

/-- The state after the first upsert at second 0. -/
def rtDb1 : DB :=
  { scenes := [newSceneRow rtF0 0], versions := [], sync_log := [], clock := 0 }

/-- The state after the second upsert, still at second 0. -/
def rtDb2 : DB :=
  { scenes := [applyFields rtF1 0 (newSceneRow rtF0 0)], versions := [],
    sync_log := [], clock := 0 }

/-- **C10** (counterexample): two upserts of the same scene within the same
wall-clock second — no `tick` between the calls, matching
`CURRENT_TIMESTAMP`'s one-second resolution.  The second upsert overwrites
the provided fields (the description changes) yet leaves `updated_at` equal
to its previous value, `0`, not strictly greater; once a second passes
(`tick`) the stamp does strictly increase to `1`. -/
theorem upsert_same_second_cx :
    emptyDB.create_or_update_scene rtF0 = Except.ok rtDb1 ∧
    rtDb1.create_or_update_scene rtF1 = Except.ok rtDb2 ∧
    (rtDb1.get_scene "s1").map (fun s => s.updated_at) = some 0 ∧
    (rtDb2.get_scene "s1").map (fun s => s.description) = some (some "second write") ∧
    (rtDb2.get_scene "s1").map (fun s => s.updated_at) = some 0 ∧
    ((rtDb1.tick.create_or_update_scene rtF1).toOption.bind
      (fun db => (db.get_scene "s1").map (fun s => s.updated_at))) = some 1 := by
  refine ⟨rfl, rfl, rfl, rfl, rfl, rfl⟩

/-- **C10** (amended): whenever `create_or_update_scene` succeeds,
re-fetching the scene returns exactly the supplied field values (no
truncation or defaulting) and the stored `updated_at` is the wall-clock time
of the call; consequently `updated_at` ends up strictly greater than its
previous value exactly when the clock has advanced past that value since the
previous write — an upsert within the same second leaves it unchanged. -/
theorem upsert_scene_roundtrip :
    ∀ (db : DB) (f : SceneFields) (db' : DB),
      db.create_or_update_scene f = Except.ok db' →
      ∃ r, db'.get_scene f.scene_id = some r ∧
        r.scene_id = f.scene_id ∧
        r.batch_name = f.batch_name ∧
        r.base_filename = f.base_filename ∧
        r.capture_date = f.capture_date ∧
        r.description = f.description ∧
        r.description_model = f.description_model ∧
        r.description_timestamp = f.description_timestamp ∧
        r.roll_number = f.roll_number ∧
        r.roll_date = f.roll_date ∧
        r.date_source = f.date_source ∧
        r.date_notes = f.date_notes ∧
        r.roll_comment = f.roll_comment ∧
        r.index_book_number = f.index_book_number ∧
        r.index_book_date = f.index_book_date ∧
        r.index_book_comment = f.index_book_comment ∧
        r.short_description = f.short_description ∧
        r.updated_at = db.clock ∧
        (∀ old, db.get_scene f.scene_id = some old →
          (old.updated_at < r.updated_at ↔ old.updated_at < db.clock)) := by
  intro db f db' h
  unfold DB.create_or_update_scene at h
  cases hfind : db.scenes.find? (fun s => s.scene_id = f.scene_id) with
  | some old0 =>
    rw [hfind] at h
    by_cases hc : (db.scenes.any (fun s =>
        s.scene_id ≠ f.scene_id ∧ s.batch_name = f.batch_name ∧
        s.base_filename = f.base_filename)) = true
    · rw [if_pos hc] at h
      exact Except.noConfusion h
    · rw [if_neg hc] at h
      obtain rfl := Except.ok.inj h
      have hid : old0.scene_id = f.scene_id := by
        simpa using List.find?_some hfind
      refine ⟨applyFields f db.clock old0, ?_, hid, rfl, rfl, rfl, rfl, rfl, rfl,
        rfl, rfl, rfl, rfl, rfl, rfl, rfl, rfl, rfl, rfl, ?_⟩
      · exact find?_map_update f db.clock db.scenes old0 hfind
      · intro old hold
        unfold DB.get_scene at hold
        rw [hfind] at hold
        obtain rfl := Option.some.inj hold
        exact Iff.rfl
  | none =>
    rw [hfind] at h
    by_cases hc : (db.scenes.any (fun s =>
        s.batch_name = f.batch_name ∧ s.base_filename = f.base_filename)) = true
    · rw [if_pos hc] at h
      exact Except.noConfusion h
    · rw [if_neg hc] at h
      obtain rfl := Except.ok.inj h
      refine ⟨newSceneRow f db.clock, ?_, rfl, rfl, rfl, rfl, rfl, rfl,
        rfl, rfl, rfl, rfl, rfl, rfl, rfl, rfl, rfl, rfl, rfl, ?_⟩
      · unfold DB.get_scene
        rw [find?_append_none _ db.scenes hfind]
        exact List.find?_cons_of_pos _ (by simp [newSceneRow])
      · intro old hold
        unfold DB.get_scene at hold
        rw [hfind] at hold
        exact Option.noConfusion hold

/-- The base state for the round-trip witness. -/
def wDb : DB :=
  { scenes := [baseScene "s1" "B" "f1" 0], versions := [], sync_log := [], clock := 5 }

/-- The full field set for the round-trip witness. -/
def wF : SceneFields :=
  { scene_id := "s1", batch_name := "B2", base_filename := "f2",
    capture_date := some "1969-06-01", description := some "a dusk scene",
    roll_number := some "12", roll_date := some "1969-06",
    date_source := some "index book", roll_comment := some "roll twelve" }

/-- The state the witness upsert produces. -/
def wDb' : DB :=
  { scenes := [applyFields wF 5 (baseScene "s1" "B" "f1" 0)],
    versions := [], sync_log := [], clock := 5 }

theorem upsert_scene_roundtrip_witness :
    ∃ r, wDb'.get_scene wF.scene_id = some r ∧
      r.scene_id = wF.scene_id ∧
      r.batch_name = wF.batch_name ∧
      r.base_filename = wF.base_filename ∧
      r.capture_date = wF.capture_date ∧
      r.description = wF.description ∧
      r.description_model = wF.description_model ∧
      r.description_timestamp = wF.description_timestamp ∧
      r.roll_number = wF.roll_number ∧
      r.roll_date = wF.roll_date ∧
      r.date_source = wF.date_source ∧
      r.date_notes = wF.date_notes ∧
      r.roll_comment = wF.roll_comment ∧
      r.index_book_number = wF.index_book_number ∧
      r.index_book_date = wF.index_book_date ∧
      r.index_book_comment = wF.index_book_comment ∧
      r.short_description = wF.short_description ∧
      r.updated_at = wDb.clock ∧
      (∀ old, wDb.get_scene wF.scene_id = some old →
        (old.updated_at < r.updated_at ↔ old.updated_at < wDb.clock)) :=
  upsert_scene_roundtrip wDb wF wDb' (by rfl)

/-- A scene whose only indexed text beyond its filename is the description
`"sunset"`. -/
def sunsetScene : SceneRow :=
  { baseScene "s1" "B" "f1" 1 with description := some "sunset" }

/-- A scene whose only indexed text beyond its filename is the roll comment
`"roll"`. -/
def rollScene : SceneRow :=
  { baseScene "s2" "B" "f2" 2 with roll_comment := some "roll" }

def orDb : DB :=
  { scenes := [sunsetScene, rollScene], versions := [], sync_log := [], clock := 10 }

/-- **C7**: with no facet filters, a query of two or more whitespace-delimited
terms matches a scene exactly when at least one single term matches it
(logical OR, not AND) — the total over any state counts precisely those
scenes; and in particular `"roll sunset"` matches both the scene whose
description contains only "sunset" and the scene whose roll comment contains
only "roll". -/
theorem search_multi_term_or :
    (∀ (db : DB) (q : String) (lim off : Nat), 2 ≤ (pyWords q).length →
      (db.search_scenes_fts q none none none none lim off).total =
        db.scenes.countP (fun s => (pyWords q).any (fun t => ftsTermMatch t s))) ∧
    sunsetScene ∈ (orDb.search_scenes_fts "roll sunset" none none none none 100 0).results ∧
    rollScene ∈ (orDb.search_scenes_fts "roll sunset" none none none none 100 0).results := by
  refine ⟨?_, by decide, by decide⟩
  intro db q lim off hq
  have hne : q.isEmpty = false := by
    cases hqe : q.isEmpty with
    | false => rfl
    | true =>
      exfalso
      have hq0 : q = "" := (String.isEmpty_iff q).mp hqe
      rw [hq0] at hq
      have : pyWords "" = [] := rfl
      rw [this] at hq
      exact absurd hq (by simp)
  show (db.scenes.filter (scenePred q none none none none)).length = _
  rw [← List.countP_eq_length_filter]
  refine List.countP_congr ?_
  intro s _
  unfold scenePred ftsQueryMatch
  simp only [truthy, Bool.false_eq_true, if_false, Bool.and_true, hne]
  rw [if_pos (by omega : (pyWords q).length > 1)]

theorem search_multi_term_or_witness :
    (orDb.search_scenes_fts "roll sunset" none none none none 100 0).total =
      orDb.scenes.countP (fun s =>
        (pyWords "roll sunset").any (fun t => ftsTermMatch t s)) :=
  search_multi_term_or.1 orDb "roll sunset" 100 0 (by decide)

/-- Three scenes with batch names A, A, B (the spec's facet example). -/
def facetDb : DB :=
  { scenes := [baseScene "s1" "A" "f1" 1, baseScene "s2" "A" "f2" 2,
               baseScene "s3" "B" "f3" 3]
    versions := [], sync_log := [], clock := 10 }

/-- A scene carrying a distinct `date_source` value. -/
def dsrcScene (i : Nat) : SceneRow :=
  { baseScene ("s" ++ toString i) "B" ("f" ++ toString i) i with
    date_source := some ("ds" ++ toString i) }

/-- Eleven scenes with eleven distinct `date_source` values. -/
def dsrcDb : DB :=
  { scenes := (List.range 11).map dsrcScene, versions := [], sync_log := [], clock := 20 }

/-- **C8** (counterexample): with eleven distinct `date_source` values among
the matched scenes and no filters, the claim's "up to 20 most frequent
pairs" would return all eleven, but the code's `date_sources` facet query
carries `LIMIT 10` and returns only ten. -/
theorem date_source_facet_limit_cx :
    ((dsrcDb.search_scenes_fts "" none none none none 100 0).facets.date_sources.getD
      []).length = 10 ∧
    ((dsrcDb.scenes.filter (scenePred "" none none none none)).filterMap
      (fun s => s.date_source)).dedup.length = 11 := by
  constructor
  · decide
  · decide

/-- **C8** (amended): for each of the four facet dimensions, a dimension
pinned by a truthy filter has its facet list omitted; an unpinned dimension
returns the top-`k` most frequent (value, count) pairs over the filtered
result set — sorted by count descending with ties broken by value ascending
(roll dates: descending) — where `k` is 20 for roll numbers, roll dates and
batch names but 10 for date sources.  In particular, batch names A, A, B
with no batch filter yield `batch_names = [(A, 2), (B, 1)]`. -/
theorem search_facets_characterization :
    (∀ (db : DB) (q : String) (rn rd bn ds : Option String) (lim off : Nat),
      ((truthy rn = true →
        (db.search_scenes_fts q rn rd bn ds lim off).facets.roll_numbers = none) ∧
       (truthy rn = false → ∃ l,
        (db.search_scenes_fts q rn rd bn ds lim off).facets.roll_numbers = some l ∧
        IsTopFacet 20 facetLeAsc
          (facetPairs (fun s => s.roll_number)
            (db.scenes.filter (scenePred q rn rd bn ds))) l)) ∧
      ((truthy rd = true →
        (db.search_scenes_fts q rn rd bn ds lim off).facets.roll_dates = none) ∧
       (truthy rd = false → ∃ l,
        (db.search_scenes_fts q rn rd bn ds lim off).facets.roll_dates = some l ∧
        IsTopFacet 20 facetLeDesc
          (facetPairs (fun s => s.roll_date)
            (db.scenes.filter (scenePred q rn rd bn ds))) l)) ∧
      ((truthy bn = true →
        (db.search_scenes_fts q rn rd bn ds lim off).facets.batch_names = none) ∧
       (truthy bn = false → ∃ l,
        (db.search_scenes_fts q rn rd bn ds lim off).facets.batch_names = some l ∧
        IsTopFacet 20 facetLeAsc
          (facetPairs (fun s => some s.batch_name)
            (db.scenes.filter (scenePred q rn rd bn ds))) l)) ∧
      ((truthy ds = true →
        (db.search_scenes_fts q rn rd bn ds lim off).facets.date_sources = none) ∧
       (truthy ds = false → ∃ l,
        (db.search_scenes_fts q rn rd bn ds lim off).facets.date_sources = some l ∧
        IsTopFacet 10 facetLeAsc
          (facetPairs (fun s => s.date_source)
            (db.scenes.filter (scenePred q rn rd bn ds))) l))) ∧
    (facetDb.search_scenes_fts "" none none none none 100 0).facets.batch_names =
      some [("A", 2), ("B", 1)] := by
  constructor
  · intro db q rn rd bn ds lim off
    refine ⟨⟨?_, ?_⟩, ⟨?_, ?_⟩, ⟨?_, ?_⟩, ⟨?_, ?_⟩⟩ <;> intro h <;>
      simp only [DB.search_scenes_fts, h, Bool.false_eq_true, if_false, if_true,
        Option.some.injEq]
    · exact ⟨_, rfl, isTopFacet_insertionSort_take 20 facetLeAsc _
        (facetPairs_nodup _ _)⟩
    · exact ⟨_, rfl, isTopFacet_insertionSort_take 20 facetLeDesc _
        (facetPairs_nodup _ _)⟩
    · exact ⟨_, rfl, isTopFacet_insertionSort_take 20 facetLeAsc _
        (facetPairs_nodup _ _)⟩
    · exact ⟨_, rfl, isTopFacet_insertionSort_take 10 facetLeAsc _
        (facetPairs_nodup _ _)⟩
  · decide

theorem search_facets_characterization_witness :
    (truthy none = false → ∃ l,
      (facetDb.search_scenes_fts "" none none none none 100 0).facets.batch_names =
        some l ∧
      IsTopFacet 20 facetLeAsc
        (facetPairs (fun s => some s.batch_name)
          (facetDb.scenes.filter (scenePred "" none none none none))) l) :=
  (search_facets_characterization.1 facetDb "" none none none none 100 0).2.2.1.2

/-- The code's candidate test agrees with the amended claim's candidate
test: the only difference from the original claim is that empty hashes are
rejected (the code's falsy-hash skip and `hamming_distance`'s empty-string
guard). -/
theorem similarCandidate_eq_spec (t : String) (thr : Nat) (r : LiveJoinRow) :
    similarCandidate t thr r = similarCandidateSpec t thr r := by
  unfold similarCandidate similarCandidateSpec hamming_distance
  cases r.v.perceptual_hash with
  | none => rfl
  | some h =>
    dsimp only
    by_cases hh : h.isEmpty
    · rw [if_pos hh, if_neg (by simp [hh])]
    · rw [if_neg hh]
      by_cases ht : t.isEmpty
      · rw [if_pos (by simp [ht]), if_neg (by simp [ht])]
      · by_cases hlen : t.length = h.length
        · rw [if_neg (by simp [ht, hh, hlen])]
          dsimp only
          by_cases hd : countDiff t.data h.data ≤ thr
          · rw [if_pos hd, if_pos ⟨by simp [ht], by simp [hh], hlen.symm, hd⟩]
          · rw [if_neg hd, if_neg (by intro hc; exact hd hc.2.2.2)]
        · rw [if_pos (by simp [hlen]), if_neg (by intro hc; exact hlen hc.2.2.1.symm)]

/-- **C1** (counterexample): a live version whose stored hash is the empty
string, queried with the empty target hash — the hashes have equal length
and zero differing positions, so the claim as stated returns the version at
distance 0, but `find_similar_scenes` skips every falsy (empty) hash and
returns nothing. -/
theorem find_similar_empty_hash_cx :
    findSimilarClaim emptyHashDb "" 1 20 =
      [{ scene_id := "s1", version_id := "v1", distance := 0, r2_key := some "k1",
         batch_name := "B", base_filename := "f1", capture_date := none }] ∧
    emptyHashDb.find_similar_scenes "" 1 20 = [] := by
  constructor
  · decide
  · decide

/-- **C1** (amended): under the working-set bound (at most 10000 live rows),
`find_similar_scenes` returns the `limit`-prefix of a list that is sorted by
distance ascending and whose distance classes are, in scan order, exactly
the live versions kept by the amended candidate test (non-empty equal-length
hashes within the threshold) — i.e. the claimed result set, stably ordered;
and on the spec's example state the query `"ffff"` with threshold 1 returns
exactly the `"ffff"` version at distance 0 then the `"fffe"` version at
distance 1. -/
theorem find_similar_characterization :
    (∀ (db : DB) (t : String) (thr lim : Nat), (liveRows db).length ≤ 10000 →
      ∃ full, db.find_similar_scenes t thr lim = full.take lim ∧
        List.Sorted (fun a b : SimilarResult => a.distance ≤ b.distance) full ∧
        full.length = ((liveRows db).filterMap (similarCandidateSpec t thr)).length ∧
        (∀ d, full.filter (fun x => x.distance == d) =
          ((liveRows db).filterMap (similarCandidateSpec t thr)).filter
            (fun x => x.distance == d))) ∧
    simDb.find_similar_scenes "ffff" 1 20 =
      [{ scene_id := "s1", version_id := "v1", distance := 0, r2_key := some "k1",
         batch_name := "B", base_filename := "f1", capture_date := none },
       { scene_id := "s2", version_id := "v2", distance := 1, r2_key := some "k2",
         batch_name := "B", base_filename := "f2", capture_date := none }] := by
  constructor
  · intro db t thr lim hlen
    haveI : IsTotal SimilarResult (fun a b => a.distance ≤ b.distance) :=
      ⟨fun a b => Nat.le_total _ _⟩
    haveI : IsTrans SimilarResult (fun a b => a.distance ≤ b.distance) :=
      ⟨fun _ _ _ h1 h2 => Nat.le_trans h1 h2⟩
    have hcand : (liveRows db).filterMap (similarCandidate t thr) =
        (liveRows db).filterMap (similarCandidateSpec t thr) :=
      congrArg (fun g => List.filterMap g (liveRows db))
        (funext (similarCandidate_eq_spec t thr))
    refine ⟨(((liveRows db).filterMap (similarCandidateSpec t thr)).insertionSort
      (fun a b => a.distance ≤ b.distance)), ?_, ?_, ?_, ?_⟩
    · unfold DB.find_similar_scenes DB.get_live_versions
      dsimp only
      rw [List.take_of_length_le hlen, hcand]
    · exact List.sorted_insertionSort _ _
    · exact (List.perm_insertionSort _ _).length_eq
    · intro d
      exact filter_key_insertionSort (fun x : SimilarResult => x.distance) d _
  · decide

theorem find_similar_characterization_witness :
    ∃ full, simDb.find_similar_scenes "ffff" 1 20 = full.take 20 ∧
      List.Sorted (fun a b : SimilarResult => a.distance ≤ b.distance) full ∧
      full.length =
        ((liveRows simDb).filterMap (similarCandidateSpec "ffff" 1)).length ∧
      (∀ d, full.filter (fun x => x.distance == d) =
        ((liveRows simDb).filterMap (similarCandidateSpec "ffff" 1)).filter
          (fun x => x.distance == d)) :=
  find_similar_characterization.1 simDb "ffff" 1 20 (by decide)

end PublicSite
